import Mathlib

/-!
Verification of the text-segmentation and field-extraction logic of
`src/streamlit_app.py` (functions `parse_ad_copy_text`,
`format_structured_snippets`, and the display dispatch of
`generate_assets`).

The embedding models Python strings as `List Char` and models the ASCII
fragment of Python's case handling (`re.IGNORECASE`, `str.upper`), which is
exact for every input considered here.  The regular expression
`(AD COPY VARIATION \d+.*?):|SITELINKS:|STRUCTURED SNIPPETS:|CALLOUTS:`
used by `re.split` is embedded as a specialized scanner (`tryMatch` /
`scanAux`): Python's `re.split` scans for the leftmost match, and when the
pattern contains a capturing group it inserts the group text — or `None`
when the group did not participate in the match — between the pieces.
That `None` behaviour (checked against CPython) is what the element type
`Option (List Char)` records: `some s` is a `str` element, `none` is
Python's `None`.
-/

/-- Convert a Lean string literal to the `List Char` representation used
throughout this development. -/
def str (s : String) : List Char := s.data

/-- ASCII lower-casing, the fragment of Python case folding exercised here. -/
def lowerC (c : Char) : Char :=
  if 'A' ≤ c ∧ c ≤ 'Z' then Char.ofNat (c.toNat + 32) else c

/-- ASCII upper-casing (Python `str.upper` on ASCII data). -/
def upperC (c : Char) : Char :=
  if 'a' ≤ c ∧ c ≤ 'z' then Char.ofNat (c.toNat - 32) else c

/-- Python `s.upper()` on ASCII data. -/
def upperStr (s : List Char) : List Char := s.map upperC

/-- Python whitespace recognized by `str.strip()` (ASCII fragment). -/
def isPySpace (c : Char) : Bool :=
  c = ' ' ∨ c = '\t' ∨ c = '\n' ∨ c = '\r' ∨ c = '\x0b' ∨ c = '\x0c'

/-- Drop the longest suffix satisfying `p`. -/
def dropEndWhile (p : Char → Bool) (s : List Char) : List Char :=
  (s.reverse.dropWhile p).reverse

/-- Python `str.strip()` (both ends, whitespace). -/
def pyStrip (s : List Char) : List Char :=
  dropEndWhile isPySpace (s.dropWhile isPySpace)

/-- Python `str.strip(':')` (both ends, colons only). -/
def pyStripColon (s : List Char) : List Char :=
  dropEndWhile (fun c => c = ':') (s.dropWhile (fun c => c = ':'))

/-- Python `s.endswith(':')`. -/
def lastIsColon (s : List Char) : Bool :=
  s.getLast? = some ':'

/-- Does `s` start with `pre`, comparing characters case-insensitively
(ASCII)?  Models a `re.IGNORECASE` literal match. -/
def ciStarts : List Char → List Char → Bool
  | _, [] => true
  | [], _ :: _ => false
  | c :: s, p :: pre => lowerC c = lowerC p && ciStarts s pre

/-- ASCII decimal digit (`\d` on the inputs considered). -/
def isDigitC (c : Char) : Bool := '0' ≤ c ∧ c ≤ '9'

/-- Attempt to match the first regex alternative
`(AD COPY VARIATION \d+.*?):` at the head of `s`.  On success returns the
length of the captured group (the match itself is one character longer,
the final `:`).  `\d+` is greedy, `.*?` is lazy and `.` does not match a
newline, so the group runs up to (excluding) the first `:` that follows
the digit run on the same line. -/
def matchAdCopyVar (s : List Char) : Option Nat :=
  if ciStarts s (str "ad copy variation ") then
    let t := s.drop 18
    let d := (t.takeWhile isDigitC).length
    if d = 0 then none
    else
      let m := ((t.drop d).takeWhile (fun c => ¬ (c = ':') ∧ ¬ (c = '\n'))).length
      match (t.drop (d + m)).head? with
      | some ':' => some (18 + d + m)
      | _ => none
  else none

/-- Attempt to match the `re.split` pattern at the head of `s`.  Returns
`(g, rest)` where `rest` is the input after the match and `g` is the value
contributed by the capturing group: `some` text for the first alternative,
`none` (Python `None`) for the three literal alternatives. -/
def tryMatch (s : List Char) : Option (Option (List Char) × List Char) :=
  match matchAdCopyVar s with
  | some g => some (some (s.take g), s.drop (g + 1))
  | none =>
    if ciStarts s (str "sitelinks:") then some (none, s.drop 10)
    else if ciStarts s (str "structured snippets:") then some (none, s.drop 20)
    else if ciStarts s (str "callouts:") then some (none, s.drop 9)
    else none

/-- Scanner for `re.split`: walks the input left to right; at a match it
emits the piece accumulated so far and the group value, then resumes after
the match; otherwise it moves one character into the accumulator.  `fuel`
only forces termination; `reSplitTitles` supplies enough. -/
def scanAux : Nat → List Char → List Char → List (Option (List Char))
  | 0, _, _ => []
  | _ + 1, acc, [] => [some acc]
  | f + 1, acc, c :: rest =>
    match tryMatch (c :: rest) with
    | some (g, after) => some acc :: g :: scanAux f [] after
    | none => scanAux f (acc ++ [c]) rest

/-- The `re.split(r'(AD COPY VARIATION \d+.*?):|SITELINKS:|STRUCTURED
SNIPPETS:|CALLOUTS:', raw_text, flags=re.IGNORECASE)` call of
`parse_ad_copy_text` (src/streamlit_app.py:124). -/
def reSplitTitles (s : List Char) : List (Option (List Char)) :=
  scanAux (s.length + 1) [] s

/-- A character that cannot begin any alternative of the section-title
pattern (every alternative starts with `a`, `s` or `c`, case-insensitively). -/
def safeChar (c : Char) : Bool :=
  ¬ (lowerC c = 'a') ∧ ¬ (lowerC c = 's') ∧ ¬ (lowerC c = 'c')

/-- Whether the section-title pattern matches anywhere in `s` (that is,
whether the input contains a recognized section marker). -/
def hasMatch : List Char → Bool
  | [] => false
  | c :: rest => (tryMatch (c :: rest)).isSome || hasMatch rest

/-- The Python exceptions the embedded code can raise. -/
inductive PyError where
  | attributeError
  deriving DecidableEq

/-- Python `dict` assignment `m[k] = v` on an insertion-ordered
association list: replaces the value in place if the key exists, else
appends the binding at the end. -/
def assocSet : List (List Char × List Char) → List Char → List Char →
    List (List Char × List Char)
  | [], k, v => [(k, v)]
  | (k', v') :: t, k, v =>
    if k' = k then (k, v) :: t else (k', v') :: assocSet t k v

/-- Python `k in m` on the association list. -/
def containsKey (m : List (List Char × List Char)) (k : List Char) : Bool :=
  (m.lookup k).isSome

/-- The major section titles of src/streamlit_app.py:144. -/
def majorTitles : List (List Char) :=
  [str "SITELINKS", str "STRUCTURED SNIPPETS", str "CALLOUTS"]

/-- One iteration of the `for i in range(1, len(sections))` loop of
`parse_ad_copy_text` (src/streamlit_app.py:134-145).  The state is the
`output` dict together with `current_title`.  A `none` element (Python
`None`, produced by `re.split` for the non-capturing alternatives) raises
`AttributeError` at `sections[i].strip()`. -/
def loopStep (st : List (List Char × List Char) × List Char)
    (piece : Option (List Char)) :
    Except PyError (List (List Char × List Char) × List Char) :=
  match piece with
  | none => .error .attributeError
  | some p =>
    let sp := pyStrip p
    if lastIsColon sp then
      let t := pyStripColon sp
      let out := if containsKey st.1 t then st.1 else st.1 ++ [(t, [])]
      .ok (out, t)
    else
      let out := assocSet st.1 st.2 (pyStrip sp)
      let t := if majorTitles.contains (upperStr st.2)
               then str "Temp Placeholder" else st.2
      .ok (out, t)

/-- `parse_ad_copy_text` (src/streamlit_app.py:116-147): split the raw
text on the section-title pattern; with fewer than two pieces return the
single-entry `Raw Output` dict holding the raw text unmodified; otherwise
run the title-tracking loop over `sections[1:]`. -/
def parse_ad_copy_text (raw : List Char) :
    Except PyError (List (List Char × List Char)) :=
  let sections := reSplitTitles raw
  if sections.length < 2 then .ok [(str "Raw Output", raw)]
  else (sections.drop 1).foldlM loopStep ([], str "Intro") |>.map Prod.fst

/-- Does `s` start with the literal `pre` (case-sensitive)? -/
def startsWithLit : List Char → List Char → Bool
  | _, [] => true
  | [], _ :: _ => false
  | c :: s, p :: pre => c = p && startsWithLit s pre

/-- The rendering decision of the display loop of `generate_assets`
(src/streamlit_app.py:436-456) for one `(title, content)` entry of the
parsed output. -/
inductive RenderAction where
  | rawOutput
  | adCopyTable
  | sitelinksCode
  | snippetsRender
  | calloutsCode
  | skip
  deriving DecidableEq

/-- The branch structure of the display loop (src/streamlit_app.py:436-456):
`Raw Output` is rendered first (exact, case-sensitive comparison), empty
content is skipped, then the title is dispatched by its upper-cased form;
any other title falls through and is not rendered. -/
def displayDispatch (title content : List Char) : RenderAction :=
  if title = str "Raw Output" then .rawOutput
  else if content = [] then .skip
  else if startsWithLit (upperStr title) (str "AD COPY VARIATION") then .adCopyTable
  else if upperStr title = str "SITELINKS" then .sitelinksCode
  else if upperStr title = str "STRUCTURED SNIPPETS" then .snippetsRender
  else if upperStr title = str "CALLOUTS" then .calloutsCode
  else .skip

/-- ASCII word character, for the `\b` boundary in `re.split(r'\bHeader:', ...)`. -/
def isWordChar (c : Char) : Bool :=
  ('a' ≤ c ∧ c ≤ 'z') ∨ ('A' ≤ c ∧ c ≤ 'Z') ∨ ('0' ≤ c ∧ c ≤ '9') ∨ c = '_'

/-- Scanner for `re.split(r'\bHeader:', content, flags=re.IGNORECASE)`
(src/streamlit_app.py:178).  `prevW` records whether the character before
the scan position is a word character (`false` at the start of the
string); `Header:` starts with a word character, so the `\b` boundary
holds exactly when `prevW` is `false`.  After a match the previous
character is the non-word `:`. -/
def splitHeaderAux : Nat → Bool → List Char → List Char → List (List Char)
  | 0, _, _, _ => []
  | _ + 1, _, acc, [] => [acc]
  | f + 1, prevW, acc, c :: rest =>
    if ¬ prevW ∧ ciStarts (c :: rest) (str "header:") then
      acc :: splitHeaderAux f false [] ((c :: rest).drop 7)
    else
      splitHeaderAux f (isWordChar c) (acc ++ [c]) rest

/-- `re.split(r'\bHeader:', content, flags=re.IGNORECASE)`. -/
def splitHeader (s : List Char) : List (List Char) :=
  splitHeaderAux (s.length + 1) false [] s

/-- Python `s.split('\n')`. -/
def splitNl : List Char → List (List Char)
  | [] => [[]]
  | '\n' :: rest => [] :: splitNl rest
  | c :: rest =>
    match splitNl rest with
    | [] => [[c]]
    | piece :: more => (c :: piece) :: more

/-- Python `v.replace('- ', '')`: removes every (non-overlapping,
left-to-right) occurrence of the two-character pattern `- `. -/
def replaceDashSpace : List Char → List Char
  | [] => []
  | '-' :: ' ' :: rest => replaceDashSpace rest
  | c :: rest => c :: replaceDashSpace rest

/-- What `format_structured_snippets` renders for one block: either a
subheader with bulleted values, or the whole block surfaced as opaque
preformatted text. -/
inductive SnippetOut where
  | group (header : List Char) (values : List (List Char))
  | rawBlock (block : List Char)
  deriving DecidableEq

/-- `format_structured_snippets` (src/streamlit_app.py:176-193), with the
Streamlit calls reified as the list of rendered items in order: each
non-empty block (after stripping) contributes a `group` when its first
line (colons stripped) is non-empty and the later lines contain `- `
bullets, and a `rawBlock` otherwise. -/
def format_structured_snippets (content : List Char) : List SnippetOut :=
  (splitHeader content).foldl
    (fun acc block0 =>
      let block := pyStrip block0
      if block = [] then acc
      else
        match (splitNl block).map pyStrip with
        | [] => acc
        | l0 :: ls =>
          let headerText := pyStrip (pyStripColon l0)
          let values := (ls.filter (fun v => startsWithLit v (str "- "))).map
            (fun v => pyStrip (replaceDashSpace v))
          if headerText ≠ [] ∧ values ≠ [] then acc ++ [.group headerText values]
          else acc ++ [.rawBlock block])
    []

/-! ## Helper lemmas -/

lemma ciStarts_head_false {c d : Char} (s p : List Char)
    (hd : ¬ (lowerC c = lowerC d)) : ciStarts (c :: s) (d :: p) = false := by
  simp only [ciStarts]
  rw [decide_eq_false hd, Bool.false_and]

lemma tryMatch_safe {c : Char} (t : List Char) (h : safeChar c = true) :
    tryMatch (c :: t) = none := by
  simp only [safeChar, decide_eq_true_eq] at h
  obtain ⟨ha, hs, hc⟩ := h
  have h1 : ciStarts (c :: t) (str "ad copy variation ") = false := by
    rw [show str "ad copy variation " = 'a' :: str "d copy variation " from rfl]
    exact ciStarts_head_false _ _ ha
  have h2 : ciStarts (c :: t) (str "sitelinks:") = false := by
    rw [show str "sitelinks:" = 's' :: str "itelinks:" from rfl]
    exact ciStarts_head_false _ _ hs
  have h3 : ciStarts (c :: t) (str "structured snippets:") = false := by
    rw [show str "structured snippets:" = 's' :: str "tructured snippets:" from rfl]
    exact ciStarts_head_false _ _ hs
  have h4 : ciStarts (c :: t) (str "callouts:") = false := by
    rw [show str "callouts:" = 'c' :: str "allouts:" from rfl]
    exact ciStarts_head_false _ _ hc
  have hm : matchAdCopyVar (c :: t) = none := by
    unfold matchAdCopyVar; rw [h1]; simp
  unfold tryMatch
  rw [hm, h2, h3, h4]
  simp

lemma scanAux_safe_prefix (p : List Char) :
    ∀ (f : Nat) (acc tail : List Char), (∀ c ∈ p, safeChar c = true) →
      scanAux (p.length + f) acc (p ++ tail) = scanAux f (acc ++ p) tail := by
  induction p with
  | nil => intro f acc tail _; simp
  | cons c p ih =>
    intro f acc tail hp
    have hc : safeChar c = true := hp c (by simp)
    have hp' : ∀ d ∈ p, safeChar d = true := fun d hd => hp d (by simp [hd])
    have hfuel : (c :: p).length + f = (p.length + f) + 1 := by
      rw [List.length_cons]; omega
    rw [hfuel]
    show scanAux ((p.length + f) + 1) acc (c :: (p ++ tail)) = _
    rw [show scanAux ((p.length + f) + 1) acc (c :: (p ++ tail)) =
          (match tryMatch (c :: (p ++ tail)) with
            | some (g, after) => some acc :: g :: scanAux (p.length + f) [] after
            | none => scanAux (p.length + f) (acc ++ [c]) (p ++ tail)) from rfl]
    rw [tryMatch_safe _ hc]
    rw [ih f (acc ++ [c]) tail hp']
    simp

lemma scanAux_of_no_match :
    ∀ (s acc : List Char), hasMatch s = false →
      scanAux (s.length + 1) acc s = [some (acc ++ s)] := by
  intro s
  induction s with
  | nil => intro acc _; simp [scanAux]
  | cons c rest ih =>
    intro acc h
    simp only [hasMatch, Bool.or_eq_false_iff] at h
    obtain ⟨h1, h2⟩ := h
    have h1' : tryMatch (c :: rest) = none := by
      cases htm : tryMatch (c :: rest) with
      | none => rfl
      | some v => rw [htm] at h1; simp at h1
    show scanAux (rest.length + 1 + 1) acc (c :: rest) = _
    rw [show scanAux (rest.length + 1 + 1) acc (c :: rest) =
          (match tryMatch (c :: rest) with
            | some (g, after) => some acc :: g :: scanAux (rest.length + 1) [] after
            | none => scanAux (rest.length + 1) (acc ++ [c]) rest) from rfl]
    rw [h1', ih (acc ++ [c]) h2]
    simp

lemma assocSet_assocSet (m : List (List Char × List Char))
    (k v₁ v₂ : List Char) :
    assocSet (assocSet m k v₁) k v₂ = assocSet m k v₂ := by
  induction m with
  | nil => simp [assocSet]
  | cons kv t ih =>
    by_cases h : kv.1 = k
    · simp [assocSet, h]
    · simp [assocSet, h, ih]

/-! ## Claim theorems -/

/-- C1: the claim states segmentation never raises for any input,
including inputs containing `SITELINKS:` markers.  In fact Python's
`re.split` yields `None` for the capture group on every
`SITELINKS:`/`STRUCTURED SNIPPETS:`/`CALLOUTS:` match, and the loop's
`sections[i].strip()` then raises `AttributeError`: evaluating the
embedded code on an input containing a `SITELINKS:` marker produces the
error. -/
theorem segmentation_raises_on_sitelinks :
    parse_ad_copy_text (str "SITELINKS:\n- Contact Us") =
      .error .attributeError := rfl

/-- C2 counterexample: for the marker-free input `"  hi  "` the claim
demands a `Raw Output` body equal to the trimmed input, but the code
returns the raw input unmodified, which differs from its trimmed form. -/
theorem raw_output_not_trimmed_cex :
    parse_ad_copy_text (str "  hi  ") = .ok [(str "Raw Output", str "  hi  ")] ∧
      ¬ (pyStrip (str "  hi  ") = str "  hi  ") :=
  ⟨rfl, by decide⟩

/-- C2 amended: for every input in which no recognized section marker
occurs, segmentation returns exactly one section titled `Raw Output`
whose body is the entire input verbatim (not trimmed). -/
theorem raw_output_keeps_input_verbatim (s : List Char)
    (h : hasMatch s = false) :
    parse_ad_copy_text s = .ok [(str "Raw Output", s)] := by
  have hs : reSplitTitles s = [some s] := by
    have := scanAux_of_no_match s [] h
    simpa [reSplitTitles] using this
  simp [parse_ad_copy_text, hs]

/-- C2 amended, witness at a concrete marker-free input. -/
theorem raw_output_keeps_input_verbatim_witness :
    parse_ad_copy_text (str "no bullet points here") =
      .ok [(str "Raw Output", str "no bullet points here")] :=
  raw_output_keeps_input_verbatim (str "no bullet points here") rfl

/-- C3: the claim states that for inputs with at least one marker the
output sections, markers restored, reconstruct the input with no content
loss.  Evaluating the embedded code: on an ad-copy input the captured
marker text is filed as content under `Intro` and then overwritten by the
body, so the result keeps only a fragment of the input (and inputs with
the other three markers raise `AttributeError` instead,
cf. `segmentation_raises_on_sitelinks`). -/
theorem adcopy_segmentation_loses_content :
    parse_ad_copy_text (str "AD COPY VARIATION 1 (Service Focus: X):\nbody") =
      .ok [(str "Intro", str "X):\nbody")] := rfl

/-- C4 counterexample: for an input with two `AD COPY VARIATION` sections
with identical titles, the claim demands both bodies in the result; the
code returns a single `Intro` entry holding only the second body, the
first having been overwritten. -/
theorem identical_variations_collide_cex :
    parse_ad_copy_text
        (str "AD COPY VARIATION 1:\nbodyA\nAD COPY VARIATION 1:\nbodyB") =
      .ok [(str "Intro", str "bodyB")] ∧
      ¬ (str "bodyA") ∈ [(str "Intro", str "bodyB")].map Prod.snd :=
  ⟨rfl, by decide⟩

/-- C4 amended: the parsed document is an insertion-ordered mapping keyed
by the tracking title, not by position: a content piece is stored by dict
assignment under the current tracking title, overwriting any earlier body
under the same title, so two variations whose pieces are filed under one
tracking title collide and only the later body survives. -/
theorem content_overwrites_by_title
    (out : List (List Char × List Char)) (t p₁ p₂ : List Char)
    (hs₁ : pyStrip p₁ = p₁) (hs₂ : pyStrip p₂ = p₂)
    (h₁ : lastIsColon p₁ = false) (h₂ : lastIsColon p₂ = false)
    (h₃ : majorTitles.contains (upperStr t) = false) :
    [some p₁, some p₂].foldlM loopStep (out, t) =
      .ok (assocSet out t p₂, t) := by
  have h₃' : upperStr t ∉ majorTitles := by simpa using h₃
  simp [List.foldlM, loopStep, hs₁, hs₂, h₁, h₂, h₃', assocSet_assocSet,
    Except.instMonad, Except.bind, Except.pure]

/-- C4 amended, witness: two plain bodies filed under `Intro`; only the
second survives. -/
theorem content_overwrites_by_title_witness :
    [some (str "bodyA"), some (str "bodyB")].foldlM loopStep
        ([], str "Intro") =
      .ok ([(str "Intro", str "bodyB")], str "Intro") :=
  content_overwrites_by_title [] (str "Intro") (str "bodyA") (str "bodyB")
    rfl rfl rfl rfl rfl

/-- C5 counterexample: for an input with non-whitespace text before the
first marker, the claim demands a leading `Intro` section whose body is
that text; the code discards `"hello world"` entirely and the only
section's body is `"body"`. -/
theorem preceding_text_not_emitted_cex :
    parse_ad_copy_text (str "hello world\nAD COPY VARIATION 1: body") =
      .ok [(str "Intro", str "body")] ∧
      ¬ (str "body" = str "hello world") :=
  ⟨rfl, by decide⟩

/-- C5 amended: the text preceding the first marker is discarded
unconditionally — whether whitespace or not — because the loop starts at
`sections[1]`; the result does not depend on it.  Stated for an arbitrary
preceding text made of characters that cannot begin a marker. -/
theorem preceding_text_discarded (p : List Char)
    (hp : ∀ c ∈ p, safeChar c = true) :
    parse_ad_copy_text (p ++ str "AD COPY VARIATION 1: body") =
      .ok [(str "Intro", str "body")] := by
  have hlen : (p ++ str "AD COPY VARIATION 1: body").length + 1 =
      p.length + 26 := by
    simp [str]
  have hsplit : reSplitTitles (p ++ str "AD COPY VARIATION 1: body") =
      [some p, some (str "AD COPY VARIATION 1"), some (str " body")] := by
    unfold reSplitTitles
    rw [hlen, scanAux_safe_prefix p 26 [] (str "AD COPY VARIATION 1: body") hp]
    simp only [List.nil_append]
    rw [show scanAux 26 p (str "AD COPY VARIATION 1: body") =
          (match tryMatch (str "AD COPY VARIATION 1: body") with
            | some (g, after) => some p :: g :: scanAux 25 [] after
            | none => scanAux 25 (p ++ ['A']) (str "D COPY VARIATION 1: body"))
        from rfl]
    rw [show tryMatch (str "AD COPY VARIATION 1: body") =
          some (some (str "AD COPY VARIATION 1"), str " body") from rfl]
    rfl
  simp [parse_ad_copy_text, hsplit]
  rfl

set_option maxRecDepth 8000 in
/-- C5 amended, witness at a concrete non-whitespace preceding text. -/
theorem preceding_text_discarded_witness :
    parse_ad_copy_text
        (str "hello world" ++ str "AD COPY VARIATION 1: body") =
      .ok [(str "Intro", str "body")] :=
  preceding_text_discarded (str "hello world") (by decide)

/-- C8 counterexample: the claim states text before the first `Header:`
is discarded; the code instead processes it like any other block, so for
this body the first emitted group is built from the pre-`Header:` text. -/
theorem pre_header_text_not_discarded_cex :
    format_structured_snippets
        (str "Intro line\n- X\nHeader: Services\n- Repair") =
      [.group (str "Intro line") [str "X"],
       .group (str "Services") [str "Repair"]] ∧
      ¬ (str "Intro line" = str "Services") :=
  ⟨rfl, by decide⟩

/-- C8 amended: the body is split on case-insensitive `Header:` tokens at
word boundaries and every non-empty block — including any text before the
first `Header:` — is processed: it yields a `(header, values)` group when
its first line gives a non-empty header and later lines carry `- `
bullets, and is surfaced verbatim as opaque text otherwise; the claim's
two-group example holds as stated. -/
theorem snippet_blocks_grouped_or_surfaced :
    format_structured_snippets
        (str "Header: Services\n- Repair\n- Install\nHeader: Areas\n- North\n- South") =
      [.group (str "Services") [str "Repair", str "Install"],
       .group (str "Areas") [str "North", str "South"]] ∧
    format_structured_snippets (str "Header: NoBullets\njust text") =
      [.rawBlock (str "NoBullets\njust text")] :=
  ⟨rfl, rfl⟩

set_option maxRecDepth 100000 in
/-- C9: the claim's scenario raw text should parse to an ordered document
with an ad-copy entry and a `SITELINKS` entry; evaluating the embedded
code, segmentation raises `AttributeError` at the `None` produced by the
`SITELINKS:` match before any entry is dispatched. -/
theorem scenario_segmentation_raises :
    parse_ad_copy_text
        (str "AD COPY VARIATION 1 (Service Focus: Widgets):\nHeadlines:\n- Buy Widgets Now\nDescriptions:\n- Great widgets.\nSITELINKS:\n- Contact Us") =
      .error .attributeError := rfl

/-- C10: after a content piece is assigned while the tracking title is a
major section title, the tracker resets to `Temp Placeholder`; a
subsequent content piece arriving without a newly recognized title is
filed under the key `Temp Placeholder` (not appended to the previous
section); and the display loop dispatches no renderer for the title
`Temp Placeholder`. -/
theorem temp_placeholder_sink :
    (∀ (out : List (List Char × List Char)) (t p : List Char),
        pyStrip p = p → lastIsColon p = false →
        majorTitles.contains (upperStr t) = true →
        loopStep (out, t) (some p) =
          .ok (assocSet out t p, str "Temp Placeholder")) ∧
    (∀ (out : List (List Char × List Char)) (p : List Char),
        pyStrip p = p → lastIsColon p = false →
        loopStep (out, str "Temp Placeholder") (some p) =
          .ok (assocSet out (str "Temp Placeholder") p,
               str "Temp Placeholder")) ∧
    (∀ content : List Char,
        displayDispatch (str "Temp Placeholder") content = .skip) := by
  refine ⟨?_, ?_, ?_⟩
  · intro out t p hs hc hm
    have hm' : upperStr t ∈ majorTitles := by simpa using hm
    simp [loopStep, hs, hc, hm']
  · intro out p hs hc
    simp [loopStep, hs, hc]
  · intro content
    by_cases h : content = [] <;> simp [displayDispatch, h] <;> decide

/-- C10 witness: a body assigned under `SITELINKS` resets the tracker,
and the `Temp Placeholder` title is dispatched to no renderer. -/
theorem temp_placeholder_sink_witness :
    loopStep ([], str "SITELINKS") (some (str "- Contact Us")) =
      .ok ([(str "SITELINKS", str "- Contact Us")], str "Temp Placeholder") ∧
    displayDispatch (str "Temp Placeholder") (str "trailing") = .skip :=
  ⟨temp_placeholder_sink.1 [] (str "SITELINKS") (str "- Contact Us")
      rfl rfl rfl,
   temp_placeholder_sink.2.2 (str "trailing")⟩
